import Mathlib

/-!
Shallow embedding of the bevy_skynet session (lobby) state machine and typed
message bus, translated from the Rust sources under src/. Machine integers are
modeled as Nat with explicit reductions mod 256 where bytes are produced;
fallible operations return Option or small result enums. Definitions keep the
names of the source functions they embed.

Spec terminology versus source terminology: the spec phase Idle is the source
LobbyState::None, Creating and Joining are both LobbyState::Joining, and
InSession is LobbyState::InLobby.
-/

namespace Skynet

/-- User ids (steamworks SteamId) modeled as naturals. -/
abbrev UserId := Nat

/-- Lobby ids (steamworks LobbyId, a u64) modeled as naturals. -/
abbrev LobbyId := Nat

/-- src/backends/lobby.rs LobbyState. -/
inductive LobbyState where
  | InLobby
  | None
  | Joining
  deriving DecidableEq, Repr

/-- src/backends/lobby.rs LobbyVisibility. -/
inductive LobbyVisibility where
  | Anyone
  | FriendsOnly
  | InviteOnly
  deriving DecidableEq, Repr

/-- src/backends/lobby.rs CurrentLobby. -/
structure CurrentLobby where
  id : LobbyId
  vis : LobbyVisibility
  is_host : Bool
  max_members : Nat
  invite_code : String
  others : List UserId
  deriving DecidableEq, Repr

/-- impl Default for CurrentLobby in src/backends/lobby.rs. -/
def CurrentLobby.defaultVal : CurrentLobby :=
  { id := 0
    vis := LobbyVisibility.Anyone
    max_members := 4
    is_host := false
    invite_code := ""
    others := [] }

/-- src/backends/steam/mod.rs LobbyData: the session state behind the lock. -/
structure LobbyData where
  state : LobbyState
  curr : CurrentLobby
  deriving DecidableEq, Repr

/-- impl Default for LobbyData in src/backends/steam/mod.rs. -/
def LobbyData.defaultVal : LobbyData :=
  { state := LobbyState.None, curr := CurrentLobby.defaultVal }

/-- src/backends/steam/mod.rs LobbyData::set_joining_if_none. When the state
is None it assigns curr and returns a clone of self; otherwise it returns
None and leaves self untouched. Note that the source assigns only the curr
field: the state field is left as it was. -/
def LobbyData.set_joining_if_none (self : LobbyData) (data : CurrentLobby) :
    LobbyData × Option LobbyData :=
  if self.state = LobbyState.None then
    let s := { self with curr := data }
    (s, some s)
  else
    (self, none)

/-- src/backends/steam/mod.rs LobbyData::get_if_in_lobby. -/
def LobbyData.get_if_in_lobby (self : LobbyData) : Option CurrentLobby :=
  if self.state = LobbyState.InLobby then some self.curr else none

/-- Result of a create or join call: the lobby data after the call, the
boolean handed back to the caller, and whether the matchmaking provider
request (create_lobby or join_lobby) was issued. -/
structure LobbyCallResult where
  lobby : LobbyData
  returned : Bool
  providerInvoked : Bool
  deriving DecidableEq, Repr

/-- src/backends/steam/mod.rs Backend::create_lobby. Builds the CurrentLobby
value with the requested visibility, member cap and is_host set, then calls
set_joining_if_none; only on Some does it contact the provider and return
true. -/
def Backend.create_lobby (lob : LobbyData) (vis : LobbyVisibility)
    (max_members : Nat) : LobbyCallResult :=
  let data := { CurrentLobby.defaultVal with
                  vis := vis, max_members := max_members, is_host := true }
  match lob.set_joining_if_none data with
  | (lob2, some _) => { lobby := lob2, returned := true, providerInvoked := true }
  | (lob2, none) => { lobby := lob2, returned := false, providerInvoked := false }

/-- src/backends/steam/mod.rs Backend::join_lobby. Same shape as
create_lobby with the target id and is_host false. -/
def Backend.join_lobby (lob : LobbyData) (lobby : LobbyId) : LobbyCallResult :=
  let data := { CurrentLobby.defaultVal with id := lobby, is_host := false }
  match lob.set_joining_if_none data with
  | (lob2, some _) => { lobby := lob2, returned := true, providerInvoked := true }
  | (lob2, none) => { lobby := lob2, returned := false, providerInvoked := false }

/-- Result of Backend::exit_lobby: lobby data after the call, the returned
boolean, the OnLobbyExit events sent, and the provider leave_lobby target. -/
structure ExitCallResult where
  lobby : LobbyData
  returned : Bool
  exitEvents : List LobbyId
  leaveInvoked : Option LobbyId
  deriving DecidableEq, Repr

/-- src/backends/steam/mod.rs Backend::exit_lobby. When get_if_in_lobby is
Some it sends the exit event, calls provider leave_lobby, sets state to None
and returns true; otherwise it returns false without touching anything. -/
def Backend.exit_lobby (lob : LobbyData) : ExitCallResult :=
  match lob.get_if_in_lobby with
  | some curr =>
    { lobby := { lob with state := LobbyState.None }
      returned := true
      exitEvents := [curr.id]
      leaveInvoked := some curr.id }
  | none =>
    { lobby := lob, returned := false, exitEvents := [], leaveInvoked := none }

/-- src/backends/steam/mod.rs Backend::current_lobby: get_if_in_lobby with
the others field refreshed from the provider member query. -/
def Backend.current_lobby (members : List UserId) (lob : LobbyData) :
    Option CurrentLobby :=
  (lob.get_if_in_lobby).map fun c => { c with others := members }

/-- u64::to_be_bytes as used by NetSender::write_buffer in src/params.rs:
most significant byte first. -/
def u64_to_be_bytes (n : Nat) : List Nat :=
  [n / 2 ^ 56 % 256, n / 2 ^ 48 % 256, n / 2 ^ 40 % 256, n / 2 ^ 32 % 256,
   n / 2 ^ 24 % 256, n / 2 ^ 16 % 256, n / 2 ^ 8 % 256, n % 256]

/-- u64::from_le_bytes as used by recv_incoming_packets in
src/backends/mod.rs: least significant byte first. -/
def u64_from_le_bytes (b0 b1 b2 b3 b4 b5 b6 b7 : Nat) : Nat :=
  b0 + b1 * 2 ^ 8 + b2 * 2 ^ 16 + b3 * 2 ^ 24 + b4 * 2 ^ 32 +
    b5 * 2 ^ 40 + b6 * 2 ^ 48 + b7 * 2 ^ 56

/-- src/params.rs NetSender::write_buffer: clears the buffer, writes the
message id in big-endian byte order, then appends the ciborium-serialized
payload. The serializer output is taken as an abstract byte list. -/
def NetSender.write_buffer (msg_id : Nat) (ser : List Nat) : List Nat :=
  u64_to_be_bytes msg_id ++ ser

/-- Outcome of the sending path NetSender::send or broadcast composed with
Backend::send_packet in src/backends/steam/mod.rs. The rejectedTooLarge
constructor exists so the size-ceiling property can be stated at all. -/
inductive SendPacketOutcome where
  | sent (bytes : List Nat)
  | rejectedTooLarge
  deriving DecidableEq, Repr

/-- src/params.rs NetSender::send and broadcast: write_buffer then hand the
whole buffer to the backend, which forwards it to send_p2p_packet. There is
no branch on the buffer length anywhere on this path. -/
def NetSender.send (msg_id : Nat) (ser : List Nat) : SendPacketOutcome :=
  SendPacketOutcome.sent (NetSender.write_buffer msg_id ser)

/-- src/context.rs Message, with the decoded payload kept abstract as a byte
list (the value produced by the per-kind deserializer). -/
structure Message where
  sender : UserId
  payload : List Nat
  deriving DecidableEq, Repr

/-- src/context.rs MessageType: the registered name, its xxh64 id, and the
type-erased transmitter. The ciborium deserializer behind IncomingTx is
abstracted as a function from raw payload bytes to an optional decoded
value, and the bounded typed queue has the configured capacity. -/
structure MessageType where
  name : String
  id : Nat
  decode : List Nat → Option (List Nat)
  capacity : Nat

/-- std BTreeMap::insert semantics: replaces any existing entry at the key
and returns the previous value. -/
def btreeInsert (k : Nat) (v : MessageType) :
    List (Nat × MessageType) → List (Nat × MessageType) × Option MessageType
  | [] => ([(k, v)], none)
  | (k2, v2) :: rest =>
    if k = k2 then ((k, v) :: rest, some v2)
    else
      let r := btreeInsert k v rest
      ((k2, v2) :: r.1, r.2)

/-- std BTreeMap lookup (get). -/
def mapLookup (k : Nat) : List (Nat × MessageType) → Option MessageType
  | [] => none
  | (k2, v2) :: rest => if k = k2 then some v2 else mapLookup k rest

/-- src/context.rs MessageRegistry::insert: performs the BTreeMap insert and
panics when the insert returned a previous entry. The boolean records
whether the duplicate-id panic fired. -/
def MessageRegistry.insert (reg : List (Nat × MessageType))
    (msg : MessageType) : List (Nat × MessageType) × Bool :=
  let r := btreeInsert msg.id msg reg
  (r.1, r.2.isSome)

/-- Result of comms.rs IncomingTx::send: Ok with a flag recording whether
the queue-full log line fired, or the propagated ciborium decode error. -/
inductive TxSendResult where
  | ok (loggedFull : Bool)
  | cborError
  deriving DecidableEq, Repr

/-- src/comms.rs IncomingTx::send: deserialize the payload; on failure
propagate the error. On success try_send into the bounded typed queue;
when the queue is full the message is dropped with a log line and the
function still returns Ok. -/
def IncomingTx.send (ty : MessageType) (q : List Message)
    (payload : List Nat) (sender : UserId) : TxSendResult × List Message :=
  match ty.decode payload with
  | none => (TxSendResult.cborError, q)
  | some v =>
    if q.length < ty.capacity then
      (TxSendResult.ok false, q ++ [{ sender := sender, payload := v }])
    else
      (TxSendResult.ok true, q)

/-- The registry map together with every typed incoming queue, keyed by the
message id the queue was registered under. -/
structure RegState where
  registry : List (Nat × MessageType)
  queues : Nat → List Message

/-- Outcome of MessageRegistry::send in src/context.rs: the unregistered-id
log, the deserialize-failure log, or delivery (with the queue-full flag from
IncomingTx::send). -/
inductive DispatchResult where
  | unknownMessage
  | malformed
  | delivered (droppedFull : Bool)
  deriving DecidableEq, Repr

/-- src/context.rs MessageRegistry::send: look the id up in the map; when
absent log and do nothing else; when present run the type-erased
IncomingTx::send and log when it reports a deserialize error. -/
def MessageRegistry.send (st : RegState) (msg_id : Nat) (payload : List Nat)
    (sender : UserId) : RegState × DispatchResult :=
  match mapLookup msg_id st.registry with
  | none => (st, DispatchResult.unknownMessage)
  | some ty =>
    match IncomingTx.send ty (st.queues msg_id) payload sender with
    | (TxSendResult.cborError, _) => (st, DispatchResult.malformed)
    | (TxSendResult.ok logged, q2) =>
      ({ st with queues := fun k => if k = msg_id then q2 else st.queues k },
       DispatchResult.delivered logged)

/-- A raw inbound packet as returned by Backend::recv_packet: the sender and
the received bytes (whose length is the len the source checks). -/
structure RawPacket where
  sender : UserId
  data : List Nat
  deriving DecidableEq, Repr

/-- What the body of the recv loop in src/backends/mod.rs did with one
packet: discarded it as too small, or parsed the id and dispatched. -/
inductive RouteAction where
  | discardedTooSmall (len : Nat)
  | dispatched (msg_id : Nat) (payload : List Nat) (res : DispatchResult)
  deriving DecidableEq, Repr

/-- The recv loop body of recv_incoming_packets (src/backends/mod.rs) under
the idealization that the reported packet bytes are actually present in the
buffer, which is the routing the loop body plainly intends: packets shorter
than 8 bytes discarded with a warning, otherwise the first 8 bytes read
little-endian as the id and the rest handed to MessageRegistry::send. As
written the receive buffer is a zero-length Vec that is never filled;
recvLoopBody and recv_incoming_packets below model the code as written.
Even under this idealization the endianness mismatch defeats delivery. -/
def routePacket (st : RegState) (p : RawPacket) : RegState × RouteAction :=
  if p.data.length < 8 then
    (st, RouteAction.discardedTooSmall p.data.length)
  else
    let b := p.data
    let msg_id := u64_from_le_bytes (b.getD 0 0) (b.getD 1 0) (b.getD 2 0)
        (b.getD 3 0) (b.getD 4 0) (b.getD 5 0) (b.getD 6 0) (b.getD 7 0)
    let r := MessageRegistry.send st msg_id (b.drop 8) p.sender
    (r.1, RouteAction.dispatched msg_id (b.drop 8) r.2)

/-- One step outcome of the recv loop as written, over the actual receive
buffer contents together with the length recv_packet reported. -/
inductive LoopStep where
  | warnedTooSmall (loggedLen : Nat)
  | dispatched (msg_id : Nat) (payload : List Nat) (res : DispatchResult)
  | panickedIndexOutOfBounds (bufLen : Nat)
  deriving DecidableEq, Repr

/-- The body of the while-let loop in recv_incoming_packets exactly as
written: len is the size recv_packet reported, buf is what the receive
buffer actually holds. When len is at least 8 the source indexes buf at the
positions 0 through 7, and Rust indexing panics when the buffer is shorter
than that. The too-small warning logs the buffer length, not len, exactly
as the source does. -/
def recvLoopBody (st : RegState) (sender : UserId) (buf : List Nat)
    (len : Nat) : RegState × LoopStep :=
  if len < 8 then
    (st, LoopStep.warnedTooSmall buf.length)
  else if buf.length < 8 then
    (st, LoopStep.panickedIndexOutOfBounds buf.length)
  else
    let msg_id := u64_from_le_bytes (buf.getD 0 0) (buf.getD 1 0)
        (buf.getD 2 0) (buf.getD 3 0) (buf.getD 4 0) (buf.getD 5 0)
        (buf.getD 6 0) (buf.getD 7 0)
    let r := MessageRegistry.send st msg_id (buf.drop 8) sender
    (r.1, LoopStep.dispatched msg_id (buf.drop 8) r.2)

/-- src/backends/mod.rs recv_incoming_packets as written. The receive
buffer is created as Vec::with_capacity(1200), a Vec of length 0, and is
never resized: recv_packet hands the SDK a slice of length 0, so no packet
bytes are ever written into it and every iteration of the loop sees the
empty buffer together with whatever length the SDK reported. A panic in
the body aborts the whole drain, so later packets are not processed. -/
def recv_incoming_packets (st : RegState) :
    List (UserId × Nat) → RegState × List LoopStep
  | [] => (st, [])
  | (sender, len) :: ps =>
    let r := recvLoopBody st sender [] len
    match r.2 with
    | LoopStep.panickedIndexOutOfBounds n =>
      (r.1, [LoopStep.panickedIndexOutOfBounds n])
    | step =>
      let rest := recv_incoming_packets r.1 ps
      (rest.1, step :: rest.2)

/-- src/util.rs Receiver wraps one bounded tokio mpsc channel: a fixed
capacity and the queued items in FIFO order. -/
structure Channel (α : Type) where
  capacity : Nat
  queue : List α
  deriving DecidableEq, Repr

/-- Observable outcome of a producer-side send on a bounded channel within
one tick window. -/
inductive BlockingSend (α : Type) where
  /-- Room was available: the item was appended to the queue. -/
  | enqueued (c : Channel α)
  /-- tokio blocking_send found the channel full: it parks the calling
  thread until room frees, so within the current window the call does not
  complete and nothing is dropped or logged. -/
  | blocksUntilRoom
  /-- The drop-the-item-and-log outcome; listed so the property can be
  stated, never produced by Receiver::send. -/
  | droppedWithLog (c : Channel α)
  deriving DecidableEq, Repr

/-- src/util.rs Receiver::send: tokio blocking_send with the result
discarded (a closed-receiver error is silently ignored). -/
def Receiver.send {α : Type} (c : Channel α) (x : α) : BlockingSend α :=
  if c.queue.length < c.capacity then
    BlockingSend.enqueued { c with queue := c.queue ++ [x] }
  else
    BlockingSend.blocksUntilRoom

/-- tokio mpsc Sender::try_send as used by the steam callback closures in
src/backends/steam/mod.rs Backend::new: on a full queue the channel is left
unchanged and false is returned (upon which the callback logs a line). -/
def Sender.try_send {α : Type} (c : Channel α) (x : α) : Channel α × Bool :=
  if c.queue.length < c.capacity then
    ({ c with queue := c.queue ++ [x] }, true)
  else
    (c, false)

/-- src/util.rs Receiver::recv: non-blocking try_recv. -/
def Receiver.recv {α : Type} (c : Channel α) : Option α × Channel α :=
  match c.queue with
  | [] => (none, c)
  | x :: rest => (some x, { c with queue := rest })

/-- src/backends/lobby.rs OnLobbyJoin. -/
structure OnLobbyJoin where
  id : LobbyId
  deriving DecidableEq, Repr

/-- src/backends/lobby.rs OnLobbyExit. -/
structure OnLobbyExit where
  id : LobbyId
  deriving DecidableEq, Repr

/-- src/backends/lobby.rs ChatKind. -/
inductive ChatKind where
  | Invalid
  | ChatMsg
  | Typing
  | InviteGame
  | Emote
  | LeftConversation
  | Entered
  | WasKicked
  | WasBanned
  | Disconnected
  | HistoricalChat
  | LinkBlocked
  deriving DecidableEq, Repr

/-- src/backends/lobby.rs OnLobbyMessage. -/
structure OnLobbyMessage where
  content : String
  user : UserId
  kind : ChatKind
  deriving DecidableEq, Repr

/-- steamworks ChatMemberStateChange, the raw roster-change reason. -/
inductive ChatMemberStateChange where
  | Entered
  | Left
  | Kicked
  | Banned
  | Disconnected
  deriving DecidableEq, Repr

/-- steamworks LobbyChatUpdate, the raw roster-change event the callback
queues unconverted. -/
structure LobbyChatUpdate where
  lobby : LobbyId
  user_changed : UserId
  making_change : UserId
  member_state_change : ChatMemberStateChange
  deriving DecidableEq, Repr

/-- src/backends/lobby.rs OnLobbyChange. -/
inductive OnLobbyChange where
  | Joined (user : UserId)
  | Exited (user : UserId)
  | Kicked (target executor : UserId)
  | Banned (target executor : UserId)
  deriving DecidableEq, Repr

/-- src/backends/lobby.rs LobbyErrorKind. -/
inductive LobbyErrorKind where
  | TimedOut
  | TooFast
  | AccessDenied
  | InviteRequired
  | Offline
  | NotFound
  | Full
  | Banned
  | Blocked
  | Unknown
  deriving DecidableEq, Repr

/-- src/backends/lobby.rs LobbyConnectError. -/
structure LobbyConnectError where
  id : LobbyId
  kind : LobbyErrorKind
  deriving DecidableEq, Repr

/-- src/backends/steam/mod.rs BackendEvents: the five bounded channels the
steam callbacks produce into, here as the queue contents at drain time. -/
structure BackendEvents where
  on_lobby_join : List OnLobbyJoin
  on_lobby_exit : List OnLobbyExit
  on_lobby_msg : List OnLobbyMessage
  on_lobby_change : List LobbyChatUpdate
  on_lobby_error : List LobbyConnectError
  deriving DecidableEq, Repr

/-- The per-event conversion inside read_lobby_change in
src/backends/steam/mod.rs. -/
def read_lobby_change_map (ev : LobbyChatUpdate) : OnLobbyChange :=
  match ev.member_state_change with
  | ChatMemberStateChange.Entered => OnLobbyChange.Joined ev.user_changed
  | ChatMemberStateChange.Left => OnLobbyChange.Exited ev.user_changed
  | ChatMemberStateChange.Kicked =>
    OnLobbyChange.Kicked ev.user_changed ev.making_change
  | ChatMemberStateChange.Banned =>
    OnLobbyChange.Banned ev.user_changed ev.making_change
  | ChatMemberStateChange.Disconnected => OnLobbyChange.Exited ev.user_changed

/-- The domain events read_backend_events forwards to the bevy event
writers, tagged by which writer received them. -/
inductive DomainEvent where
  | joinEv (e : OnLobbyJoin)
  | exitEv (e : OnLobbyExit)
  | msgEv (e : OnLobbyMessage)
  | changeEv (e : OnLobbyChange)
  | errEv (e : LobbyConnectError)
  deriving DecidableEq, Repr

/-- src/backends/mod.rs read_backend_events: the order in which the five
channels are drained and their events written out. Each write_batch call
consumes its iterator, i.e. drains that channel until it is empty, before
the next channel is touched. -/
def read_backend_events (ev : BackendEvents) : List DomainEvent :=
  ev.on_lobby_join.map DomainEvent.joinEv ++
  ev.on_lobby_exit.map DomainEvent.exitEv ++
  ev.on_lobby_msg.map DomainEvent.msgEv ++
  ev.on_lobby_change.map (fun u => DomainEvent.changeEv (read_lobby_change_map u)) ++
  ev.on_lobby_error.map DomainEvent.errEv

/-- Whether a drained domain event is a connection error. -/
def DomainEvent.isErr : DomainEvent → Bool
  | DomainEvent.errEv _ => true
  | _ => false

/-- Whether a drained domain event is a roster change or chat message. -/
def DomainEvent.isRosterOrChat : DomainEvent → Bool
  | DomainEvent.msgEv _ => true
  | DomainEvent.changeEv _ => true
  | _ => false

/-- Every event satisfying p is drained strictly before every event
satisfying q in the list l. -/
def DrainedBefore (p q : DomainEvent → Bool) (l : List DomainEvent) : Prop :=
  ∀ i j, i < l.length → j < l.length →
    p (l.getD i (DomainEvent.joinEv { id := 0 })) = true →
    q (l.getD j (DomainEvent.joinEv { id := 0 })) = true → i < j

/-- Whether a drained domain event is a create or join outcome (a LobbyEnter
or LobbyCreated response forwarded as OnLobbyJoin). -/
def DomainEvent.isJoinOutcome : DomainEvent → Bool
  | DomainEvent.joinEv _ => true
  | _ => false

/-- A registered empty-payload message kind named Ping with wire id 1. -/
def pingType : MessageType :=
  { name := "Ping", id := 1, decode := fun _ => some [], capacity := 64 }

/-- Registry holding only the Ping kind, with every typed queue empty. -/
def pingRegistry : RegState :=
  { registry := [(1, pingType)], queues := fun _ => [] }

/-- Registry state with no registered kinds. -/
def emptyRegState : RegState :=
  { registry := [], queues := fun _ => [] }

/-- First message kind registered under id 5. -/
def kindA : MessageType :=
  { name := "A", id := 5, decode := fun _ => none, capacity := 64 }

/-- Second message kind registered under the same id 5. -/
def kindB : MessageType :=
  { name := "B", id := 5, decode := fun _ => none, capacity := 64 }

/-- The registry map after the first registration of kindA. -/
def reg1 : List (Nat × MessageType) :=
  (MessageRegistry.insert [] kindA).1

/-- A message kind whose typed queue has capacity 1. -/
def fullQueueType : MessageType :=
  { name := "Pong", id := 3, decode := fun _ => some [], capacity := 1 }

/-- Registry state where the kind with id 3 is registered and its typed
queue already holds one message, i.e. it is at capacity. -/
def fullQueueState : RegState :=
  { registry := [(3, fullQueueType)]
    queues := fun _ => [{ sender := 1, payload := [] }] }

/-- A chat message sitting in the on_lobby_msg channel. -/
def msg0 : OnLobbyMessage :=
  { content := "hi", user := 2, kind := ChatKind.ChatMsg }

/-- A connection error sitting in the on_lobby_error channel. -/
def err0 : LobbyConnectError :=
  { id := 9, kind := LobbyErrorKind.TimedOut }

/-- Channel contents with one pending chat message and one pending
connection error at drain time. -/
def ev0 : BackendEvents :=
  { on_lobby_join := []
    on_lobby_exit := []
    on_lobby_msg := [msg0]
    on_lobby_change := []
    on_lobby_error := [err0] }

/-- An indexed element below the length is a member of the list. -/
lemma getD_mem_of_lt {α : Type} (a : List α) (d : α) (n : Nat)
    (h : n < a.length) : a.getD n d ∈ a := by
  rw [List.getD_eq_getElem a d h]
  exact a.getElem_mem h

/-- When nothing in the front block satisfies q and nothing in the back
block satisfies p, every p-event precedes every q-event in the
concatenation. -/
lemma drainedBefore_append (p q : DomainEvent → Bool)
    (a b : List DomainEvent)
    (ha : ∀ x ∈ a, q x = false) (hb : ∀ x ∈ b, p x = false) :
    DrainedBefore p q (a ++ b) := by
  intro i j hi hj hp hq
  rcases Nat.lt_or_ge j a.length with hja | hja
  · exfalso
    rw [List.getD_append a b _ j hja] at hq
    have hmem := getD_mem_of_lt a (DomainEvent.joinEv { id := 0 }) j hja
    rw [ha _ hmem] at hq
    exact Bool.false_ne_true hq
  · rcases Nat.lt_or_ge i a.length with hia | hia
    · omega
    · exfalso
      rw [List.getD_append_right a b _ i hia] at hp
      have hlen : i - a.length < b.length := by
        rw [List.length_append] at hi
        omega
      have hmem := getD_mem_of_lt b (DomainEvent.joinEv { id := 0 }) _ hlen
      rw [hb _ hmem] at hp
      exact Bool.false_ne_true hp

/-- Filtering a mapped list whose images never satisfy the predicate gives
the empty list. -/
lemma filter_map_none {α : Type} (p : DomainEvent → Bool)
    (f : α → DomainEvent) (hf : ∀ x, p (f x) = false) :
    ∀ l : List α, (l.map f).filter p = [] := by
  intro l
  induction l with
  | nil => rfl
  | cons x xs ih => simp [List.filter_cons, hf x, ih]

/-- Filtering a mapped list whose images always satisfy the predicate keeps
everything. -/
lemma filter_map_all {α : Type} (p : DomainEvent → Bool)
    (f : α → DomainEvent) (hf : ∀ x, p (f x) = true) :
    ∀ l : List α, (l.map f).filter p = l.map f := by
  intro l
  induction l with
  | nil => rfl
  | cons x xs ih => simp [List.filter_cons, hf x, ih]

/-- The previous-value component of the BTreeMap insert is exactly the
lookup before the insert. -/
lemma btreeInsert_snd (k : Nat) (v : MessageType) :
    ∀ reg, (btreeInsert k v reg).2 = mapLookup k reg := by
  intro reg
  induction reg with
  | nil => rfl
  | cons hd tl ih =>
    obtain ⟨k2, v2⟩ := hd
    by_cases hk : k = k2
    · simp [btreeInsert, mapLookup, hk]
    · simp [btreeInsert, mapLookup, hk, ih]

/-- After a BTreeMap insert, looking the key up yields the new value. -/
lemma mapLookup_btreeInsert_self (k : Nat) (v : MessageType) :
    ∀ reg, mapLookup k (btreeInsert k v reg).1 = some v := by
  intro reg
  induction reg with
  | nil => simp [btreeInsert, mapLookup]
  | cons hd tl ih =>
    obtain ⟨k2, v2⟩ := hd
    by_cases hk : k = k2
    · simp [btreeInsert, mapLookup, hk]
    · simp [btreeInsert, mapLookup, hk, ih]

/-- C1: the guard that should serialize create and join attempts is not
engaged by the public request path. From the Idle state (LobbyState.None),
create_lobby returns true but leaves the phase at None, because
set_joining_if_none assigns only the curr field and never the state field;
consequently an immediately following join_lobby also returns true and
issues a second provider request, where the claim (and the trait doc
comments of create_lobby and join_lobby) require false with no provider
contact. -/
theorem C1_second_request_not_rejected :
    (Backend.create_lobby LobbyData.defaultVal LobbyVisibility.Anyone 4).returned = true ∧
    (Backend.create_lobby LobbyData.defaultVal LobbyVisibility.Anyone 4).lobby.state =
      LobbyState.None ∧
    (Backend.join_lobby
        (Backend.create_lobby LobbyData.defaultVal LobbyVisibility.Anyone 4).lobby
        42).returned = true ∧
    (Backend.join_lobby
        (Backend.create_lobby LobbyData.defaultVal LobbyVisibility.Anyone 4).lobby
        42).providerInvoked = true := by
  decide

/-- C2: the encoder and the router disagree on byte order. For the
registered kind Ping with id 1, the encoder emits the id big-endian, the
router reads it little-endian and parses 2 to the power 56, which is not in
the registry: the packet is reported unknown and no message reaches the
typed queue, refuting the claimed end-to-end delivery. -/
theorem C2_endianness_mismatch_drops_message :
    (routePacket pingRegistry
        { sender := 7, data := NetSender.write_buffer 1 [246] }).2 =
      RouteAction.dispatched (2 ^ 56) [246] DispatchResult.unknownMessage ∧
    (routePacket pingRegistry
        { sender := 7, data := NetSender.write_buffer 1 [246] }).1.queues 1 = [] ∧
    (routePacket pingRegistry
        { sender := 7, data := NetSender.write_buffer 1 [246] }).1.registry =
      pingRegistry.registry ∧
    (2 : Nat) ^ 56 ≠ 1 := by
  refine ⟨by decide, rfl, rfl, by norm_num⟩

/-- C3 counterexample: registering kindB under the id already holding kindA
does fire the fatal panic, but the BTreeMap insert has already replaced the
entry: the registry now maps id 5 to kindB, so the first registration does
not remain intact as the claim states. -/
theorem C3_first_registration_overwritten_cex :
    (MessageRegistry.insert reg1 kindB).2 = true ∧
    (mapLookup 5 (MessageRegistry.insert reg1 kindB).1).map MessageType.name =
      some "B" ∧
    ¬ (mapLookup 5 (MessageRegistry.insert reg1 kindB).1).map MessageType.name =
      some "A" := by
  refine ⟨rfl, rfl, by decide⟩

/-- C3 amended: inserting a message kind under an id that is already present
is a fatal error (the duplicate panic fires), but the map entry is replaced
by the new kind before the panic is raised, so after the insert the registry
maps that id to the new kind, not the original one. -/
theorem C3_duplicate_id_panics_but_overwrites
    (reg : List (Nat × MessageType)) (msg old : MessageType)
    (h : mapLookup msg.id reg = some old) :
    (MessageRegistry.insert reg msg).2 = true ∧
    mapLookup msg.id (MessageRegistry.insert reg msg).1 = some msg := by
  constructor
  · show (btreeInsert msg.id msg reg).2.isSome = true
    rw [btreeInsert_snd, h]
    rfl
  · show mapLookup msg.id (btreeInsert msg.id msg reg).1 = some msg
    exact mapLookup_btreeInsert_self msg.id msg reg

/-- C3 witness: concrete duplicate registration of kindB over kindA. -/
theorem C3_duplicate_id_witness :
    (MessageRegistry.insert reg1 kindB).2 = true ∧
    mapLookup 5 (MessageRegistry.insert reg1 kindB).1 = some kindB :=
  C3_duplicate_id_panics_but_overwrites reg1 kindB kindA rfl

/-- C4 counterexample: with one pending chat message and one pending
connection error, the drain emits the chat message first and the error
second, so connection errors are not drained before chat events as the
claim states. -/
theorem C4_errors_drained_last_cex :
    read_backend_events ev0 = [DomainEvent.msgEv msg0, DomainEvent.errEv err0] ∧
    ¬ DrainedBefore DomainEvent.isErr DomainEvent.isRosterOrChat
        (read_backend_events ev0) := by
  refine ⟨rfl, ?_⟩
  intro h
  have h10 := h 1 0 (by decide) (by decide) (by decide) (by decide)
  omega

/-- C4 amended: read_backend_events drains each of the five channels
exhaustively in the fixed order join, exit, chat message, roster change,
connection error. Create and join outcomes are drained before roster and
chat events, but connection errors are drained last, after them: every
non-error event precedes every error event. -/
theorem C4_drain_order_amended (ev : BackendEvents) :
    (read_backend_events ev).filter DomainEvent.isErr =
      ev.on_lobby_error.map DomainEvent.errEv ∧
    (read_backend_events ev).filter (fun e => ! e.isErr) =
      ev.on_lobby_join.map DomainEvent.joinEv ++
      ev.on_lobby_exit.map DomainEvent.exitEv ++
      ev.on_lobby_msg.map DomainEvent.msgEv ++
      ev.on_lobby_change.map
        (fun u => DomainEvent.changeEv (read_lobby_change_map u)) ∧
    DrainedBefore (fun e => ! e.isErr) DomainEvent.isErr
      (read_backend_events ev) ∧
    DrainedBefore DomainEvent.isJoinOutcome DomainEvent.isRosterOrChat
      (read_backend_events ev) := by
  refine ⟨?_, ?_, ?_, ?_⟩
  · simp only [read_backend_events, List.filter_append]
    rw [filter_map_none DomainEvent.isErr DomainEvent.joinEv (fun _ => rfl),
      filter_map_none DomainEvent.isErr DomainEvent.exitEv (fun _ => rfl),
      filter_map_none DomainEvent.isErr DomainEvent.msgEv (fun _ => rfl),
      filter_map_none DomainEvent.isErr
        (fun u => DomainEvent.changeEv (read_lobby_change_map u)) (fun _ => rfl),
      filter_map_all DomainEvent.isErr DomainEvent.errEv (fun _ => rfl)]
    simp
  · simp only [read_backend_events, List.filter_append]
    rw [filter_map_all (fun e => ! e.isErr) DomainEvent.joinEv (fun _ => rfl),
      filter_map_all (fun e => ! e.isErr) DomainEvent.exitEv (fun _ => rfl),
      filter_map_all (fun e => ! e.isErr) DomainEvent.msgEv (fun _ => rfl),
      filter_map_all (fun e => ! e.isErr)
        (fun u => DomainEvent.changeEv (read_lobby_change_map u)) (fun _ => rfl),
      filter_map_none (fun e => ! e.isErr) DomainEvent.errEv (fun _ => rfl)]
    simp
  · have hfront : ∀ x ∈ ev.on_lobby_join.map DomainEvent.joinEv ++
        ev.on_lobby_exit.map DomainEvent.exitEv ++
        ev.on_lobby_msg.map DomainEvent.msgEv ++
        ev.on_lobby_change.map
          (fun u => DomainEvent.changeEv (read_lobby_change_map u)),
        DomainEvent.isErr x = false := by
      intro x hx
      simp only [List.mem_append, List.mem_map] at hx
      rcases hx with ((⟨y, _, rfl⟩ | ⟨y, _, rfl⟩) | ⟨y, _, rfl⟩) | ⟨y, _, rfl⟩ <;> rfl
    have hback : ∀ x ∈ ev.on_lobby_error.map DomainEvent.errEv,
        (fun e => ! DomainEvent.isErr e) x = false := by
      intro x hx
      simp only [List.mem_map] at hx
      obtain ⟨y, _, rfl⟩ := hx
      rfl
    exact drainedBefore_append _ _ _ _ hfront hback
  · have hre : read_backend_events ev =
        ev.on_lobby_join.map DomainEvent.joinEv ++
        (ev.on_lobby_exit.map DomainEvent.exitEv ++
          (ev.on_lobby_msg.map DomainEvent.msgEv ++
            (ev.on_lobby_change.map
              (fun u => DomainEvent.changeEv (read_lobby_change_map u)) ++
              ev.on_lobby_error.map DomainEvent.errEv))) := by
      simp [read_backend_events, List.append_assoc]
    rw [hre]
    have hfront : ∀ x ∈ ev.on_lobby_join.map DomainEvent.joinEv,
        DomainEvent.isRosterOrChat x = false := by
      intro x hx
      simp only [List.mem_map] at hx
      obtain ⟨y, _, rfl⟩ := hx
      rfl
    have hback : ∀ x ∈ ev.on_lobby_exit.map DomainEvent.exitEv ++
        (ev.on_lobby_msg.map DomainEvent.msgEv ++
          (ev.on_lobby_change.map
            (fun u => DomainEvent.changeEv (read_lobby_change_map u)) ++
            ev.on_lobby_error.map DomainEvent.errEv)),
        DomainEvent.isJoinOutcome x = false := by
      intro x hx
      simp only [List.mem_append, List.mem_map] at hx
      rcases hx with ⟨y, _, rfl⟩ | ⟨y, _, rfl⟩ | ⟨y, _, rfl⟩ | ⟨y, _, rfl⟩ <;> rfl
    exact drainedBefore_append _ _ _ _ hfront hback

/-- C4 witness: the amended drain-order facts evaluated on the concrete
channel contents ev0. -/
theorem C4_drain_order_witness :
    (read_backend_events ev0).filter DomainEvent.isErr =
      [DomainEvent.errEv err0] ∧
    DrainedBefore (fun e => ! e.isErr) DomainEvent.isErr
      (read_backend_events ev0) := by
  have h := C4_drain_order_amended ev0
  exact ⟨h.1.trans rfl, h.2.2.1⟩

/-- C5 counterexample: a payload of 1300 serialized bytes is encoded into a
1308-byte packet and handed to the provider send unchanged; the send path
never produces the TooLarge rejection the claim requires. -/
theorem C5_oversized_packet_sent_cex :
    NetSender.send 1 (List.replicate 1300 0) =
      SendPacketOutcome.sent (NetSender.write_buffer 1 (List.replicate 1300 0)) ∧
    (NetSender.write_buffer 1 (List.replicate 1300 0)).length = 1308 ∧
    NetSender.send 1 (List.replicate 1300 0) ≠
      SendPacketOutcome.rejectedTooLarge := by
  refine ⟨rfl, ?_, ?_⟩
  · simp only [NetSender.write_buffer, u64_to_be_bytes, List.length_append,
      List.length_replicate, List.length_cons, List.length_nil]
  · intro h
    exact SendPacketOutcome.noConfusion h

/-- C5 amended: there is no size check on the send path at all. For every
id and serialized payload the encoder produces the 8 id bytes followed by
the payload, and the whole buffer is always handed to the provider,
regardless of its length; the 1200-byte transport limit is only a
documented precondition on callers. -/
theorem C5_send_never_rejects (msg_id : Nat) (ser : List Nat) :
    NetSender.send msg_id ser =
      SendPacketOutcome.sent (NetSender.write_buffer msg_id ser) ∧
    (NetSender.write_buffer msg_id ser).length = 8 + ser.length := by
  refine ⟨rfl, ?_⟩
  simp only [NetSender.write_buffer, u64_to_be_bytes, List.length_append,
    List.length_cons, List.length_nil]

/-- C6: exit_lobby returns true exactly when the state is InLobby
beforehand; on success the state becomes None and current_lobby observes no
session metadata; on failure nothing at all is changed or emitted. -/
theorem C6_exit_lobby_correct (lob : LobbyData) (members : List UserId) :
    ((Backend.exit_lobby lob).returned = true ↔
      lob.state = LobbyState.InLobby) ∧
    ((Backend.exit_lobby lob).returned = true →
      (Backend.exit_lobby lob).lobby.state = LobbyState.None ∧
      Backend.current_lobby members (Backend.exit_lobby lob).lobby = none) ∧
    ((Backend.exit_lobby lob).returned = false →
      Backend.exit_lobby lob =
        { lobby := lob, returned := false, exitEvents := [],
          leaveInvoked := none }) := by
  by_cases h : lob.state = LobbyState.InLobby <;>
    simp [Backend.exit_lobby, LobbyData.get_if_in_lobby,
      Backend.current_lobby, h]

/-- C6 witness: exiting from a concrete InLobby state and from the Idle
default state. -/
theorem C6_exit_lobby_witness :
    (Backend.exit_lobby
        { state := LobbyState.InLobby, curr := CurrentLobby.defaultVal }).returned =
      true ∧
    (Backend.exit_lobby
        { state := LobbyState.InLobby, curr := CurrentLobby.defaultVal }).lobby.state =
      LobbyState.None ∧
    Backend.current_lobby []
        (Backend.exit_lobby
          { state := LobbyState.InLobby, curr := CurrentLobby.defaultVal }).lobby =
      none ∧
    (Backend.exit_lobby LobbyData.defaultVal).returned = false := by
  have h1 := C6_exit_lobby_correct
    { state := LobbyState.InLobby, curr := CurrentLobby.defaultVal } []
  have h2 := C6_exit_lobby_correct LobbyData.defaultVal []
  have hret := h1.1.mpr rfl
  refine ⟨hret, (h1.2.1 hret).1, (h1.2.1 hret).2, ?_⟩
  cases hb : (Backend.exit_lobby LobbyData.defaultVal).returned
  · rfl
  · exact absurd (h2.1.mp hb) (by decide)

/-- C7: the receive buffer of recv_incoming_packets is
Vec::with_capacity(1200), a Vec of length 0 that recv_packet can never
fill. A packet whose reported length is 8 is never forwarded to dispatch:
the loop body panics indexing position 0 of the empty buffer, and that
panic halts the drain, so the packet after it is not processed; a packet
reported shorter than 8 is discarded with a warning that logs the buffer
length 0 instead of the reported length. The exactly-8-byte-packet-reaches-
dispatch conjunct and the one-bad-packet-never-halts-the-drain conjunct of
the claim both fail on the code as written. -/
theorem C7_recv_buffer_never_filled :
    recvLoopBody emptyRegState 2 [] 8 =
      (emptyRegState, LoopStep.panickedIndexOutOfBounds 0) ∧
    recvLoopBody emptyRegState 1 [] 3 =
      (emptyRegState, LoopStep.warnedTooSmall 0) ∧
    recv_incoming_packets emptyRegState [(1, 3), (2, 8), (3, 3)] =
      (emptyRegState,
        [LoopStep.warnedTooSmall 0, LoopStep.panickedIndexOutOfBounds 0]) := by
  exact ⟨rfl, rfl, rfl⟩

/-- C8: dispatching an id that is not in the registry reports the unknown
message outcome and returns the state untouched: the registry map and every
typed queue are exactly what they were. -/
theorem C8_unknown_id_leaves_state (st : RegState) (msg_id : Nat)
    (payload : List Nat) (sender : UserId)
    (h : mapLookup msg_id st.registry = none) :
    MessageRegistry.send st msg_id payload sender =
      (st, DispatchResult.unknownMessage) := by
  simp [MessageRegistry.send, h]

/-- C8 witness: dispatch of id 5 against the empty registry. -/
theorem C8_unknown_id_witness :
    MessageRegistry.send emptyRegState 5 [1, 2] 7 =
      (emptyRegState, DispatchResult.unknownMessage) :=
  C8_unknown_id_leaves_state emptyRegState 5 [1, 2] 7 rfl

/-- C9 counterexample: a send through util.rs Receiver::send on a channel of
capacity 4 already holding 4 items does not drop the item with a log line;
it is a tokio blocking_send, which parks the producing thread until room
frees. -/
theorem C9_blocking_send_cex :
    Receiver.send ({ capacity := 4, queue := [1, 2, 3, 4] } : Channel Nat) 5 =
      BlockingSend.blocksUntilRoom ∧
    Receiver.send ({ capacity := 4, queue := [1, 2, 3, 4] } : Channel Nat) 5 ≠
      BlockingSend.droppedWithLog { capacity := 4, queue := [1, 2, 3, 4] } := by
  decide

/-- C9 amended: the steam callback closures send with try_send, which on a
full channel leaves the queue unchanged and returns false (upon which the
callback logs a line), and appends in FIFO order while room remains; but
Receiver::send, used on the lobby-exit path, is a blocking send that never
drops: on a full channel it blocks the producing thread instead. -/
theorem C9_channel_send_semantics {α : Type} (c : Channel α) (x : α) :
    (c.queue.length = c.capacity →
      Sender.try_send c x = (c, false) ∧
      Receiver.send c x = BlockingSend.blocksUntilRoom) ∧
    (c.queue.length < c.capacity →
      Sender.try_send c x = ({ c with queue := c.queue ++ [x] }, true) ∧
      Receiver.send c x =
        BlockingSend.enqueued { c with queue := c.queue ++ [x] }) := by
  constructor
  · intro h
    have h2 : ¬ c.queue.length < c.capacity := by omega
    constructor
    · simp [Sender.try_send, h2]
    · simp [Receiver.send, h2]
  · intro h
    constructor
    · simp [Sender.try_send, h]
    · simp [Receiver.send, h]

/-- C9 witness: a full capacity-4 channel rejects nothing through try_send
without mutation while blocking through Receiver::send, and a channel with
room appends at the tail. -/
theorem C9_channel_send_witness :
    Sender.try_send ({ capacity := 4, queue := [10, 20, 30, 40] } : Channel Nat) 50 =
      ({ capacity := 4, queue := [10, 20, 30, 40] }, false) ∧
    Receiver.send ({ capacity := 4, queue := [10, 20, 30, 40] } : Channel Nat) 50 =
      BlockingSend.blocksUntilRoom ∧
    Sender.try_send ({ capacity := 4, queue := [10, 20, 30] } : Channel Nat) 40 =
      ({ capacity := 4, queue := [10, 20, 30, 40] }, true) := by
  have h1 := (C9_channel_send_semantics
    ({ capacity := 4, queue := [10, 20, 30, 40] } : Channel Nat) 50).1 rfl
  have h2 := (C9_channel_send_semantics
    ({ capacity := 4, queue := [10, 20, 30] } : Channel Nat) 40).2 (by decide)
  exact ⟨h1.1, h1.2, h2.1⟩

/-- C10: when the payload deserializes successfully but the typed queue for
the kind is already at capacity, the decoded message is dropped with only
the queue-full log line and dispatch still reports delivery: no Malformed or
other error is surfaced and the state is returned unchanged. -/
theorem C10_full_typed_queue_ok (st : RegState) (msg_id : Nat)
    (payload : List Nat) (sender : UserId) (ty : MessageType) (v : List Nat)
    (hty : mapLookup msg_id st.registry = some ty)
    (hdec : ty.decode payload = some v)
    (hfull : ¬ (st.queues msg_id).length < ty.capacity) :
    MessageRegistry.send st msg_id payload sender =
      (st, DispatchResult.delivered true) := by
  have hq : (fun k => if k = msg_id then st.queues msg_id else st.queues k) =
      st.queues := by
    funext k
    by_cases hk : k = msg_id
    · rw [if_pos hk, hk]
    · rw [if_neg hk]
  simp [MessageRegistry.send, IncomingTx.send, hty, hdec, hfull, hq]

/-- C10 witness: dispatch into the registered kind with id 3 whose
capacity-1 queue already holds one message. -/
theorem C10_full_typed_queue_witness :
    MessageRegistry.send fullQueueState 3 [246] 7 =
      (fullQueueState, DispatchResult.delivered true) :=
  C10_full_typed_queue_ok fullQueueState 3 [246] 7 fullQueueType [] rfl rfl
    (by decide)

end Skynet
